import Mathlib

/-!
Verification of the playback orchestration engine of the DO-DREAM app.

The definitions below are a shallow embedding of the session state machine
implemented in `fe_app/src/services/ttsService.ts` (class `TTSService`) and of
the accessibility autoplay guard implemented in the player screen
(`ensureAutoPlay`).  JavaScript numbers are modelled as rationals, `undefined`
as `Option.none`, and every command or asynchronous callback of the service is
a function from the service state to a new state together with the list of
observable effects (native-engine calls and host callbacks) it performs.  An
async method that suspends awaiting an engine completion event is split at the
suspension point: the synchronous prefix is one step, and the resumption (the
`tts-finish` / `tts-error` continuation, or the scheduled pause-timer callback)
is a separate step parameterised by the data the closure captured (the speak
token and the pause duration).
-/

namespace DoDream

/-- A narratable content unit, from `types/chapter.ts` (`Section`).  The
`type` field is a string in the source (`'paragraph' | 'heading' | 'formula'
| 'image_description'`); we keep it as a string because the pacing switch in
the service branches on the string value and has a default branch. -/
structure TtsSection where
  id : String
  text : String
  type : String
deriving DecidableEq, Repr

/-- Play mode, from `types/playMode.ts`: `'single' | 'continuous' | 'repeat'`.
The `repeat` literal is rendered `repeatMode` (`repeat` is a Lean keyword). -/
inductive PlayMode where
  | single
  | continuous
  | repeatMode
deriving DecidableEq, Repr

/-- `TTSStatus` from `ttsService.ts`. -/
inductive TTSStatus where
  | idle
  | playing
  | paused
  | stopped
deriving DecidableEq, Repr

/-- `PauseSettings` from `ttsService.ts` (all fields present). -/
structure PauseSettings where
  heading : ℚ
  paragraph : ℚ
  formula : ℚ
  imageDescription : ℚ
  default : ℚ
deriving DecidableEq, Repr

/-- `Partial<PauseSettings>`: every field may be absent. -/
structure PauseOverrides where
  heading : Option ℚ
  paragraph : Option ℚ
  formula : Option ℚ
  imageDescription : Option ℚ
  default : Option ℚ
deriving DecidableEq, Repr

/-- `SyncOptions` from `ttsService.ts`. -/
structure SyncOptions where
  rate : ℚ
  pitch : ℚ
  volume : ℚ
  voiceId : Option String
deriving DecidableEq, Repr

/-- The data fields of `TTSOptions` from `ttsService.ts`.  The host-callback
fields (`onStart`, `onDone`, ...) live outside the model: invoking them is
recorded as an `Effect`. -/
structure TTSOptions where
  language : Option String
  pitch : Option ℚ
  rate : Option ℚ
  volume : Option ℚ
  voice : Option String
  pauseSettings : Option PauseOverrides
  playMode : Option PlayMode
  repeatCount : Option ℕ
deriving DecidableEq, Repr

/-- The empty options record `{}`. -/
def TTSOptions.empty : TTSOptions :=
  ⟨none, none, none, none, none, none, none, none⟩

/-- Data captured by a suspended completion: the speak token captured by
`waitForTtsFinish` and the pause duration computed by `play`.  The same data
is what the scheduled `pauseAfterTimer` closure holds. -/
structure PendingWait where
  token : ℕ
  pauseAfter : ℤ
deriving DecidableEq, Repr

/-- The mutable fields of the `TTSService` class. -/
structure TTSState where
  currentSectionIndex : ℕ
  sections : List TtsSection
  status : TTSStatus
  options : TTSOptions
  playMode : PlayMode
  currentRepeatCount : ℕ
  targetRepeatCount : ℕ
  speakToken : ℕ
  pauseAfterTimer : Option PendingWait
  retryCount : ℕ
  isTtsInitialized : Bool
deriving DecidableEq, Repr

/-- Observable effects of one step: calls into the native engine and
invocations of the host callbacks supplied in `TTSOptions`. -/
inductive Effect where
  | engStop
  | applyOptions
  | engSpeak (text : String) (rate : ℚ)
  | voiceFallback
  | onStart
  | onDone
  | onError
  | onSectionChange (index : ℕ)
  | onSectionComplete
deriving DecidableEq, Repr

/-- Result of one step: the new state, the effects performed (in order), and,
when the step initiated a new speak operation, the suspended completion that
is now awaiting the engine. -/
structure StepOut where
  state : TTSState
  effects : List Effect
  waiting : Option PendingWait
deriving DecidableEq, Repr

/-- JavaScript `x || d` for an optional number (`0` is falsy). -/
def jsOr (x : Option ℚ) (d : ℚ) : ℚ :=
  match x with
  | some v => if v = 0 then d else v
  | none => d

/-- JavaScript `Math.round`: the floor of `x + 1/2` (halves round towards
positive infinity, exactly as `Math.round` does).  Written with the
executable `Rat.floor` so that concrete values evaluate; it agrees with
Mathlib `round` (see `jsRound_eq_round`). -/
def jsRound (q : ℚ) : ℤ :=
  (q + 1 / 2).floor

/-- `defaultPauseSettings` from `ttsService.ts`. -/
def defaultPauseSettings : PauseSettings :=
  { heading := 1500, paragraph := 800, formula := 1200
    imageDescription := 1000, default := 500 }

/-- `{ ...this.defaultPauseSettings }` viewed as a `Partial<PauseSettings>`:
every field present. -/
def defaultsAsOverrides : PauseOverrides :=
  { heading := some defaultPauseSettings.heading
    paragraph := some defaultPauseSettings.paragraph
    formula := some defaultPauseSettings.formula
    imageDescription := some defaultPauseSettings.imageDescription
    default := some defaultPauseSettings.default }

namespace TTSService

/-- `maxRetry` from `ttsService.ts`. -/
def maxRetry : ℕ := 2

/-- `getPauseTime(sectionType)` from `ttsService.ts`.  It reads only
`this.options`, so it is modelled as a pure function of the options and the
section type.  `Math.round` agrees with Mathlib `round` (half rounds up). -/
def getPauseTime (opts : TTSOptions) (sectionType : String) : ℤ :=
  let rate : ℚ := jsOr opts.rate 1
  let basePause : ℚ :=
    match opts.pauseSettings with
    | none =>
        if sectionType = "heading" then defaultPauseSettings.heading
        else if sectionType = "paragraph" then defaultPauseSettings.paragraph
        else if sectionType = "formula" then defaultPauseSettings.formula
        else if sectionType = "image_description" then
          defaultPauseSettings.imageDescription
        else defaultPauseSettings.default
    | some settings =>
        if sectionType = "heading" then
          settings.heading.getD defaultPauseSettings.heading
        else if sectionType = "paragraph" then
          settings.paragraph.getD defaultPauseSettings.paragraph
        else if sectionType = "formula" then
          settings.formula.getD defaultPauseSettings.formula
        else if sectionType = "image_description" then
          settings.imageDescription.getD defaultPauseSettings.imageDescription
        else settings.default.getD defaultPauseSettings.default
  jsRound (basePause / rate)

/-- `clearPauseAfterTimer()`. -/
def clearPauseAfterTimer (s : TTSState) : TTSState :=
  { s with pauseAfterTimer := none }

/-- `bumpSpeakToken()`. -/
def bumpSpeakToken (s : TTSState) : TTSState :=
  { s with speakToken := s.speakToken + 1 }

/-- The engine calls made by `speakCurrent(text)`: a forced `Tts.stop()`, the
re-application of the options, and the `Tts.speak` call (whose rate parameter
is `(options.rate || 1.0) / 2`). -/
def speakCurrentEffects (opts : TTSOptions) (text : String) : List Effect :=
  [Effect.engStop, Effect.applyOptions, Effect.engSpeak text (jsOr opts.rate 1 / 2)]

/-- A fallback section used only to satisfy totality of list indexing; every
use is guarded by an index bound, so it is never actually selected. -/
def dummySection : TtsSection := ⟨"", "", ""⟩

/-- The synchronous part of `play()`, up to the suspension inside
`waitForTtsFinish`.  Guard order follows the source: empty section list,
engine not initialised, index overflow (which sets `stopped`); otherwise the
status is set to `playing`, the pause duration is computed, the speak token is
pre-incremented and captured, the current section is spoken and `onStart`
fires, leaving a suspended completion carrying the captured token. -/
def playStep (s : TTSState) : StepOut :=
  if s.sections.length = 0 then ⟨s, [], none⟩
  else if s.isTtsInitialized = false then ⟨s, [], none⟩
  else if s.sections.length ≤ s.currentSectionIndex then
    ⟨{ s with status := TTSStatus.stopped }, [], none⟩
  else
    let currentSection := s.sections.getD s.currentSectionIndex dummySection
    let s1 := { s with status := TTSStatus.playing }
    let pauseAfter := getPauseTime s1.options currentSection.type
    let s2 := bumpSpeakToken s1
    let myToken := s2.speakToken
    ⟨{ s2 with status := TTSStatus.playing },
      speakCurrentEffects s2.options currentSection.text ++ [Effect.onStart],
      some ⟨myToken, pauseAfter⟩⟩

/-- `moveToNextSection()`.  The JS guard `currentSectionIndex <
sections.length - 1` is `currentSectionIndex + 1 < sections.length` in exact
integer arithmetic. -/
def moveToNextSection (s : TTSState) : StepOut :=
  if s.currentSectionIndex + 1 < s.sections.length then
    let s1 := { s with currentSectionIndex := s.currentSectionIndex + 1 }
    let out := playStep s1
    ⟨out.state, Effect.onSectionChange s1.currentSectionIndex :: out.effects,
      out.waiting⟩
  else
    ⟨{ s with status := TTSStatus.idle }, [Effect.onDone], none⟩

/-- `handleDone()`: the play-mode policy applied at natural completion. -/
def handleDone (s : TTSState) : StepOut :=
  match s.playMode with
  | PlayMode.single =>
      ⟨{ s with status := TTSStatus.idle }, [Effect.onSectionComplete], none⟩
  | PlayMode.repeatMode =>
      let s1 := { s with currentRepeatCount := s.currentRepeatCount + 1 }
      if s1.currentRepeatCount < s1.targetRepeatCount then playStep s1
      else moveToNextSection { s1 with currentRepeatCount := 0 }
  | PlayMode.continuous => moveToNextSection s

/-- The continuation of `waitForTtsFinish(token, pauseAfter)` that runs when
the awaited promise resolves with a `tts-finish` event: a stale token is
discarded before anything else; otherwise the pending timer is cleared and
either the pause timer is scheduled (capturing the same token) or, for a
non-positive pause, `handleDone` runs at once. -/
def finishStep (token : ℕ) (pauseAfter : ℤ) (s : TTSState) : StepOut :=
  if s.speakToken ≠ token then ⟨s, [], none⟩
  else
    let s1 := clearPauseAfterTimer s
    if 0 < pauseAfter then
      ⟨{ s1 with pauseAfterTimer := some ⟨token, pauseAfter⟩ }, [], none⟩
    else handleDone s1

/-- The `catch` branch of `waitForTtsFinish`: runs when the awaited promise
rejects with a `tts-error` event.  A stale token is discarded; otherwise the
status becomes `idle` and `onError` fires. -/
def errorStep (token : ℕ) (s : TTSState) : StepOut :=
  if s.speakToken ≠ token then ⟨s, [], none⟩
  else ⟨{ s with status := TTSStatus.idle }, [Effect.onError], none⟩

/-- The scheduled `pauseAfterTimer` callback.  It re-checks the captured
token and then runs `handleDone`.  The JS timer handle is not nulled by the
firing itself. -/
def timerFireStep (token : ℕ) (s : TTSState) : StepOut :=
  if s.speakToken ≠ token then ⟨s, [], none⟩
  else handleDone s

/-- The module-level `tts-finish` listener registered by
`setupTtsListeners()` (no token guard): fires `onSectionComplete` and sets
the status to `idle`. -/
def globalFinishEvent (s : TTSState) : StepOut :=
  ⟨{ s with status := TTSStatus.idle }, [Effect.onSectionComplete], none⟩

/-- The module-level `tts-start` listener: sets the status to `playing`. -/
def globalStartEvent (s : TTSState) : StepOut :=
  ⟨{ s with status := TTSStatus.playing }, [], none⟩

/-- `pause()`: only from `playing`; clears the pending timer, stops the
engine and becomes `paused` (also on engine-stop failure). -/
def pauseStep (s : TTSState) : StepOut :=
  if s.status = TTSStatus.playing then
    ⟨{ clearPauseAfterTimer s with status := TTSStatus.paused },
      [Effect.engStop], none⟩
  else ⟨s, [], none⟩

/-- `stop()`: clears the pending timer, bumps the speak token, stops the
engine, becomes `stopped` and resets the repeat counter. -/
def stopStep (s : TTSState) : StepOut :=
  ⟨{ s with
      pauseAfterTimer := none
      speakToken := s.speakToken + 1
      status := TTSStatus.stopped
      currentRepeatCount := 0 },
    [Effect.engStop], none⟩

/-- `resume()`: only from `paused`; replays the current section via
`play()` (pause-as-stop model). -/
def resumeStep (s : TTSState) : StepOut :=
  if s.status = TTSStatus.paused then playStep s else ⟨s, [], none⟩

/-- `goToSection(index, autoPlay)`: bounds-checked on the signed index; an
invalid index is silently ignored.  A valid index runs `stop()`, moves the
index, resets the repeat counter, fires `onSectionChange` and optionally
plays. -/
def goToSectionStep (index : ℤ) (autoPlay : Bool) (s : TTSState) : StepOut :=
  if index < 0 ∨ (s.sections.length : ℤ) ≤ index then ⟨s, [], none⟩
  else
    let out1 := stopStep s
    let s1 := { out1.state with
      currentSectionIndex := index.toNat
      currentRepeatCount := 0 }
    let effs := out1.effects ++ [Effect.onSectionChange index.toNat]
    if autoPlay then
      let out2 := playStep s1
      ⟨out2.state, effs ++ out2.effects, out2.waiting⟩
    else ⟨s1, effs, none⟩

/-- `previous()`. -/
def previousStep (s : TTSState) : StepOut :=
  if 0 < s.currentSectionIndex then
    goToSectionStep ((s.currentSectionIndex : ℤ) - 1) true s
  else ⟨s, [], none⟩

/-- `next()`. -/
def nextStep (s : TTSState) : StepOut :=
  if s.currentSectionIndex + 1 < s.sections.length then
    goToSectionStep ((s.currentSectionIndex : ℤ) + 1) true s
  else ⟨s, [], none⟩

/-- `updateAndReplay(callback)`: with an uninitialised engine only the
options update runs; otherwise it remembers whether the session was playing,
clears the timer, bumps the token, stops the engine, sets `idle`, applies the
update and the options, restores the index, and replays when it was playing
(settling back to `idle` otherwise). -/
def updateAndReplay (upd : TTSOptions → TTSOptions) (s : TTSState) : StepOut :=
  if s.isTtsInitialized = false then
    ⟨{ s with options := upd s.options }, [], none⟩
  else
    let wasPlaying := s.status = TTSStatus.playing
    let currentIndex := s.currentSectionIndex
    let s1 := { s with
      pauseAfterTimer := none
      speakToken := s.speakToken + 1
      status := TTSStatus.idle
      options := upd s.options }
    let s2 := { s1 with currentSectionIndex := currentIndex }
    if wasPlaying then
      let out := playStep s2
      ⟨out.state, Effect.engStop :: Effect.applyOptions :: out.effects,
        out.waiting⟩
    else
      ⟨{ s2 with status := TTSStatus.idle },
        [Effect.engStop, Effect.applyOptions], none⟩

/-- `setRate(rate)`. -/
def setRateStep (rate : ℚ) (s : TTSState) : StepOut :=
  updateAndReplay (fun o => { o with rate := some rate }) s

/-- `setPitch(pitch)`. -/
def setPitchStep (pitch : ℚ) (s : TTSState) : StepOut :=
  updateAndReplay (fun o => { o with pitch := some pitch }) s

/-- `setVolume(volume)`. -/
def setVolumeStep (volume : ℚ) (s : TTSState) : StepOut :=
  updateAndReplay (fun o => { o with volume := some volume }) s

/-- `setVoice(voice)`. -/
def setVoiceStep (voice : String) (s : TTSState) : StepOut :=
  updateAndReplay (fun o => { o with voice := some voice }) s

/-- `setLanguage(language)`: options-only update. -/
def setLanguageStep (language : String) (s : TTSState) : StepOut :=
  ⟨{ s with options := { s.options with language := some language } }, [], none⟩

/-- `setPlayMode(mode, repeatCount?)`: always legal; resets the repeat
counter. -/
def setPlayModeStep (mode : PlayMode) (repeatCount : Option ℕ)
    (s : TTSState) : StepOut :=
  ⟨{ s with
      playMode := mode
      targetRepeatCount := repeatCount.getD s.targetRepeatCount
      currentRepeatCount := 0 }, [], none⟩

/-- `setPauseSettings(settings)`: merges defaults, the current settings and
the new partial settings, later entries winning field-wise. -/
def setPauseSettingsStep (settings : PauseOverrides) (s : TTSState) : StepOut :=
  let current := (s.options.pauseSettings).getD
    ⟨none, none, none, none, none⟩
  let merged : PauseOverrides :=
    { heading := settings.heading.orElse fun _ =>
        current.heading.orElse fun _ => some defaultPauseSettings.heading
      paragraph := settings.paragraph.orElse fun _ =>
        current.paragraph.orElse fun _ => some defaultPauseSettings.paragraph
      formula := settings.formula.orElse fun _ =>
        current.formula.orElse fun _ => some defaultPauseSettings.formula
      imageDescription := settings.imageDescription.orElse fun _ =>
        current.imageDescription.orElse fun _ =>
          some defaultPauseSettings.imageDescription
      default := settings.default.orElse fun _ =>
        current.default.orElse fun _ => some defaultPauseSettings.default }
  ⟨{ s with options := { s.options with pauseSettings := some merged } },
    [], none⟩

/-- `syncWithSettings(settings)`: copies rate/pitch/volume (and the voice
when present) into the options and re-applies them to the engine when it is
initialised. -/
def syncWithSettingsStep (settings : SyncOptions) (s : TTSState) : StepOut :=
  let opts1 := { s.options with
    rate := some settings.rate
    pitch := some settings.pitch
    volume := some settings.volume }
  let opts2 :=
    match settings.voiceId with
    | some v => { opts1 with voice := some v }
    | none => opts1
  ⟨{ s with options := opts2 },
    if s.isTtsInitialized then [Effect.applyOptions] else [], none⟩

/-- The options record built by `initialize`:
`{ language: 'ko-KR', pitch: options.pitch || 1.0, rate: options.rate || 1.0,
volume: 1.0, pauseSettings: {...defaults}, ...options }` — a field of the
caller's record overrides the base exactly when it is present. -/
def mergeInitOptions (opts : TTSOptions) : TTSOptions :=
  { language := some (opts.language.getD "ko-KR")
    pitch := some (opts.pitch.getD (jsOr opts.pitch 1))
    rate := some (opts.rate.getD (jsOr opts.rate 1))
    volume := some (opts.volume.getD 1)
    voice := opts.voice
    pauseSettings := some (opts.pauseSettings.getD defaultsAsOverrides)
    playMode := opts.playMode
    repeatCount := opts.repeatCount }

/-- `initialize(sections, startIndex, options)` (named `initStep` here):
installs the sections and start index, derives mode and repeat target,
resets the repeat counter, rebuilds the options, sets `idle`, clears the
pending timer, bumps the speak token, re-applies the options when the engine
is up, and resets the retry counter. -/
def initStep (sections : List TtsSection) (startIndex : ℕ)
    (opts : TTSOptions) (s : TTSState) : StepOut :=
  let s1 := { s with
    sections := sections
    currentSectionIndex := startIndex
    playMode := opts.playMode.getD PlayMode.single
    targetRepeatCount := opts.repeatCount.getD 2
    currentRepeatCount := 0
    options := mergeInitOptions opts
    status := TTSStatus.idle
    pauseAfterTimer := none
    speakToken := s.speakToken + 1
    retryCount := 0 }
  ⟨s1, if s1.isTtsInitialized then [Effect.applyOptions] else [], none⟩

/-- The module-level `tts-error` listener registered by
`setupTtsListeners()`: sets `idle`; below the retry bound it bumps the retry
counter, runs the voice fallback (whose engine-dependent result is the
`fallbackVoice` parameter), stops and replays; once the bound is reached the
error is surfaced through `onError`. -/
def globalErrorEvent (fallbackVoice : Option String) (s : TTSState) : StepOut :=
  let s1 := { s with status := TTSStatus.idle }
  if s1.retryCount < maxRetry then
    let s2 := { s1 with
      retryCount := s1.retryCount + 1
      options := { s1.options with voice := some (fallbackVoice.getD "") } }
    let out1 := stopStep s2
    let out2 := playStep out1.state
    ⟨out2.state, Effect.voiceFallback :: (out1.effects ++ out2.effects),
      out2.waiting⟩
  else ⟨s1, [Effect.onError], none⟩

/-- `speakSample(text)`: stop, re-apply options, speak the sample. -/
def speakSampleStep (text : String) (s : TTSState) : StepOut :=
  if s.isTtsInitialized = false then ⟨s, [], none⟩
  else
    let out1 := stopStep s
    ⟨out1.state,
      out1.effects ++
        [Effect.applyOptions,
          Effect.engSpeak text (jsOr out1.state.options.rate 1 / 2)], none⟩

/-- `cleanup()`: clears the timer, bumps the token, stops the engine and
resets every session field. -/
def cleanupStep (s : TTSState) : StepOut :=
  ⟨{ currentSectionIndex := 0, sections := [], status := TTSStatus.idle,
      options := TTSOptions.empty, playMode := PlayMode.single,
      currentRepeatCount := 0, targetRepeatCount := s.targetRepeatCount,
      speakToken := s.speakToken + 1, pauseAfterTimer := none,
      retryCount := 0, isTtsInitialized := s.isTtsInitialized },
    [Effect.engStop], none⟩

/-- `isSpeaking()`: a pure read of the internal status field. -/
def isSpeaking (s : TTSState) : Bool :=
  s.status = TTSStatus.playing

end TTSService

/-- One element of an interleaving of host commands and asynchronous engine
callbacks against the service.  The event constructors carry the data their
JS closures captured (speak token, pause duration, engine-dependent fallback
voice). -/
inductive Step where
  | play
  | pause
  | resume
  | stop
  | next
  | previous
  | goToSection (index : ℤ) (autoPlay : Bool)
  | setRate (rate : ℚ)
  | setPitch (pitch : ℚ)
  | setVolume (volume : ℚ)
  | setVoice (voice : String)
  | setLanguage (language : String)
  | setPlayMode (mode : PlayMode) (repeatCount : Option ℕ)
  | setPauseSettings (settings : PauseOverrides)
  | syncWithSettings (settings : SyncOptions)
  | initSession (sections : List TtsSection) (startIndex : ℕ) (opts : TTSOptions)
  | cleanup
  | speakSample (text : String)
  | ttsFinish (token : ℕ) (pauseAfter : ℤ)
  | ttsError (token : ℕ)
  | timerFire (token : ℕ)
  | globalFinish
  | globalStart
  | globalError (fallbackVoice : Option String)

/-- Dispatch one step to the corresponding service operation. -/
def applyStep (st : Step) (s : TTSState) : StepOut :=
  match st with
  | Step.play => TTSService.playStep s
  | Step.pause => TTSService.pauseStep s
  | Step.resume => TTSService.resumeStep s
  | Step.stop => TTSService.stopStep s
  | Step.next => TTSService.nextStep s
  | Step.previous => TTSService.previousStep s
  | Step.goToSection i b => TTSService.goToSectionStep i b s
  | Step.setRate q => TTSService.setRateStep q s
  | Step.setPitch q => TTSService.setPitchStep q s
  | Step.setVolume q => TTSService.setVolumeStep q s
  | Step.setVoice v => TTSService.setVoiceStep v s
  | Step.setLanguage l => TTSService.setLanguageStep l s
  | Step.setPlayMode m rc => TTSService.setPlayModeStep m rc s
  | Step.setPauseSettings ps => TTSService.setPauseSettingsStep ps s
  | Step.syncWithSettings so => TTSService.syncWithSettingsStep so s
  | Step.initSession secs i o => TTSService.initStep secs i o s
  | Step.cleanup => TTSService.cleanupStep s
  | Step.speakSample t => TTSService.speakSampleStep t s
  | Step.ttsFinish tok p => TTSService.finishStep tok p s
  | Step.ttsError tok => TTSService.errorStep tok s
  | Step.timerFire tok => TTSService.timerFireStep tok s
  | Step.globalFinish => TTSService.globalFinishEvent s
  | Step.globalStart => TTSService.globalStartEvent s
  | Step.globalError fb => TTSService.globalErrorEvent fb s

/-- Run a list of steps, keeping only the evolving state. -/
def applySteps (steps : List Step) (s : TTSState) : TTSState :=
  match steps with
  | [] => s
  | st :: rest => applySteps rest (applyStep st s).state

/-- A step is a superseding command in the sense of the specification when it
is `stop()` or `initialize(...)`. -/
def Step.superseding : Step → Prop
  | Step.stop => True
  | Step.initSession _ _ _ => True
  | _ => False

/-- Run a list of steps, returning the final state and every effect
performed along the way, in order. -/
def runTrace : List Step → TTSState → TTSState × List Effect
  | [], s => (s, [])
  | st :: rest, s =>
      let out := applyStep st s
      let r := runTrace rest out.state
      (r.1, out.effects ++ r.2)

/-- The session state reached after a `play()` on `s`, an arbitrary
interleaving `pre`, a superseding step `sup`, and an arbitrary
interleaving `post`. -/
def supersededState (s : TTSState) (pre : List Step) (sup : Step)
    (post : List Step) : TTSState :=
  applySteps post
    (applyStep sup (applySteps pre (TTSService.playStep s).state)).state

/-- Whether an effect is a `Tts.speak` call. -/
def isSpeakEffect (e : Effect) : Bool :=
  match e with
  | Effect.engSpeak _ _ => true
  | _ => false

/-- Whether an effect is a `Tts.stop` call. -/
def isStopEffect (e : Effect) : Bool :=
  match e with
  | Effect.engStop => true
  | _ => false

/-- Number of `Tts.speak` calls in an effect list. -/
def countSpeaks (effects : List Effect) : ℕ :=
  (effects.filter isSpeakEffect).length

/-- Number of `Tts.stop` calls in an effect list. -/
def countStops (effects : List Effect) : ℕ :=
  (effects.filter isStopEffect).length

/-- The host-callback effects (`onStart`, `onDone`, `onError`,
`onSectionChange`, `onSectionComplete`) contained in an effect list. -/
def hostCallbacks (effects : List Effect) : List Effect :=
  effects.filter fun e =>
    match e with
    | Effect.onStart => true
    | Effect.onDone => true
    | Effect.onError => true
    | Effect.onSectionChange _ => true
    | Effect.onSectionComplete => true
    | _ => false

namespace Guard

/-!
Model of `ensureAutoPlay(delayMs)` from the player screen hosting the
service (the revision with screen-reader retries; `src/unnamed/part_004`,
lines 105-153).  The scheduled check reads `ttsService.isSpeaking()` and
`ttsService.getStatus()` once; each retry iteration performs a short delay,
calls `resume()` when the captured status was `paused` and `play()`
otherwise, waits again and then probes `isSpeaking()`.  The values
successive probes observe depend on the engine timing, so they are
abstracted as an oracle `probe : ℕ → Bool` giving the result of the probe of
iteration `k`; the `play`/`resume` invocations are recorded as calls. -/

/-- A service invocation made by the guard. -/
inductive GuardCall where
  | callPlay
  | callResume
deriving DecidableEq, Repr

/-- What one run of the scheduled check did: how many retry attempts ran,
which service calls were made, the final value written to the screen's
`isPlaying` flag (`none` when the check never wrote it), and whether that
value was the optimistic give-up write rather than a confirmed probe. -/
structure GuardOutcome where
  attempts : ℕ
  calls : List GuardCall
  isPlaying : Option Bool
  optimistic : Bool
deriving DecidableEq, Repr

/-- `maxRetries` from `ensureAutoPlay`. -/
def maxRetries : ℕ := 2

/-- The `while (retryCount < maxRetries)` loop of the screen-reader branch,
by recursion on the remaining iteration budget; `rc` is the current
`retryCount` (used to index the probe oracle).  A successful probe returns
from the whole function with `setIsPlaying(true)`; an exhausted budget falls
through to the optimistic `setIsPlaying(true)`. -/
def srRetryAux (capturedPaused : Bool) (probe : ℕ → Bool) :
    ℕ → ℕ → GuardOutcome
  | _, 0 => ⟨0, [], some true, true⟩
  | rc, remaining + 1 =>
      let call := if capturedPaused then GuardCall.callResume
        else GuardCall.callPlay
      if probe rc then ⟨1, [call], some true, false⟩
      else
        let rest := srRetryAux capturedPaused probe (rc + 1) remaining
        ⟨rest.attempts + 1, call :: rest.calls, rest.isPlaying,
          rest.optimistic⟩

/-- The screen-reader retry loop entered with `retryCount = 0`. -/
def srRetry (capturedPaused : Bool) (probe : ℕ → Bool) : GuardOutcome :=
  srRetryAux capturedPaused probe 0 maxRetries

/-- The body of the check `ensureAutoPlay` schedules after `delayMs`:
if `isSpeaking()` already reports speaking the flag is confirmed at once;
otherwise, when the status is `idle`, `stopped` or `paused`, the
screen-reader branch runs the bounded retry loop while the plain branch
performs a single `play()` and later writes the probe result to the flag. -/
def ensureAutoPlayCheck (speaking : Bool) (status : TTSStatus)
    (screenReaderEnabled : Bool) (probe : ℕ → Bool) : GuardOutcome :=
  if speaking then ⟨0, [], some true, false⟩
  else if status = TTSStatus.idle ∨ status = TTSStatus.stopped ∨
      status = TTSStatus.paused then
    if screenReaderEnabled then srRetry (status = TTSStatus.paused) probe
    else ⟨1, [GuardCall.callPlay], some (probe 0), false⟩
  else ⟨0, [], none, false⟩

end Guard

/-!
Concrete fixtures used by witnesses, counterexamples and trace theorems. -/

/-- A one-element section list: a paragraph section. -/
def sampleSection : TtsSection :=
  ⟨"s1", "hello", "paragraph"⟩

/-- Options as the player screen supplies them (rate 1.0). -/
def sampleOptions : TTSOptions :=
  { language := some "ko-KR", pitch := some 1, rate := some 1,
    volume := some 1, voice := none,
    pauseSettings := some defaultsAsOverrides,
    playMode := some PlayMode.continuous, repeatCount := none }

/-- An initialised session over the one-section list, idle at index 0. -/
def sampleState : TTSState :=
  { currentSectionIndex := 0, sections := [sampleSection],
    status := TTSStatus.idle, options := sampleOptions,
    playMode := PlayMode.continuous, currentRepeatCount := 0,
    targetRepeatCount := 2, speakToken := 0, pauseAfterTimer := none,
    retryCount := 0, isTtsInitialized := true }

/-- `sampleState` in the middle of playback. -/
def samplePlayingState : TTSState :=
  { sampleState with status := TTSStatus.playing, speakToken := 1 }

/-- `sampleState` paused mid-session. -/
def samplePausedState : TTSState :=
  { sampleState with status := TTSStatus.paused, speakToken := 1 }

/-- The options of `sampleState` with a negative caller-supplied override of
the heading pause base. -/
def negativeOverrideOptions : TTSOptions :=
  { sampleOptions with
    pauseSettings := some { defaultsAsOverrides with heading := some (-1000) } }

/-- Options selecting repeat mode with a repeat target of 3. -/
def repeatOptions : TTSOptions :=
  { sampleOptions with
    playMode := some PlayMode.repeatMode, repeatCount := some 3 }

/-- The state reached from `sampleState` by a `play()` whose pending
completion is then superseded by a `stop()`. -/
def sampleSupersededState : TTSState :=
  supersededState sampleState [] Step.stop []

/-- A session in repeat mode with target 3: the state right before the
general repeat rule fires for the first time. -/
def repeatWitnessState : TTSState :=
  { sampleState with playMode := PlayMode.repeatMode, targetRepeatCount := 3 }

/-- C2 trace, stage 1: `initialize` with repeat mode and target 3 over the
one-section list, then `play()`.  The `play` call bumps the speak token from
1 to 2 and captures it. -/
def repeatPlayOut : StepOut :=
  applyStep Step.play
    (applyStep (Step.initSession [sampleSection] 0 repeatOptions)
      sampleState).state

/-- C2 trace, stage 2: first natural completion (finish with the captured
token 2, then the 800 ms pause timer fires). -/
def repeatDone1 : StepOut :=
  applyStep (Step.timerFire 2)
    (applyStep (Step.ttsFinish 2 800) repeatPlayOut.state).state

/-- C2 trace, stage 3: second natural completion (captured token 3). -/
def repeatDone2 : StepOut :=
  applyStep (Step.timerFire 3)
    (applyStep (Step.ttsFinish 3 800) repeatDone1.state).state

/-- C2 trace, stage 4: third natural completion (captured token 4). -/
def repeatDone3 : StepOut :=
  applyStep (Step.timerFire 4)
    (applyStep (Step.ttsFinish 4 800) repeatDone2.state).state

/-- The full C2 trace as a step list. -/
def repeatTrace : List Step :=
  [Step.initSession [sampleSection] 0 repeatOptions, Step.play,
    Step.ttsFinish 2 800, Step.timerFire 2,
    Step.ttsFinish 3 800, Step.timerFire 3,
    Step.ttsFinish 4 800, Step.timerFire 4]

/-- The concrete session after the automatic error retries are exhausted
(`retryCount = maxRetry = 2`). -/
def retryExhaustedState : TTSState :=
  { sampleState with retryCount := 2 }

section RatEval

attribute [local semireducible] Rat.add Rat.mul Rat.sub Rat.inv

namespace TTSService

/-- `jsRound` is Mathlib's `round` on the rationals. -/
theorem jsRound_eq_round (q : ℚ) : jsRound q = round q := by
  rw [round_eq]
  rfl

/-- A `tts-finish` continuation with a stale token returns before changing
anything. -/
theorem finishStep_stale (token : ℕ) (pauseAfter : ℤ) (s : TTSState)
    (h : s.speakToken ≠ token) :
    finishStep token pauseAfter s = ⟨s, [], none⟩ := by
  simp [finishStep, h]

/-- A `tts-error` continuation with a stale token returns before changing
anything. -/
theorem errorStep_stale (token : ℕ) (s : TTSState)
    (h : s.speakToken ≠ token) :
    errorStep token s = ⟨s, [], none⟩ := by
  simp [errorStep, h]

/-- A pause-timer callback with a stale token returns before changing
anything. -/
theorem timerFireStep_stale (token : ℕ) (s : TTSState)
    (h : s.speakToken ≠ token) :
    timerFireStep token s = ⟨s, [], none⟩ := by
  simp [timerFireStep, h]

/-- `play()` never decreases the speak token. -/
theorem playStep_speakToken_le (s : TTSState) :
    s.speakToken ≤ (playStep s).state.speakToken := by
  unfold playStep bumpSpeakToken
  split_ifs <;> simp

/-- `play()` captures exactly the bumped current token in its suspended
completion. -/
theorem playStep_waiting_token (s : TTSState) (w : PendingWait)
    (h : (playStep s).waiting = some w) :
    w.token = (playStep s).state.speakToken := by
  unfold playStep bumpSpeakToken at h ⊢
  split_ifs at h ⊢
  simp_all
  subst h
  rfl

/-- `moveToNextSection()` never decreases the speak token. -/
theorem moveToNextSection_speakToken_le (s : TTSState) :
    s.speakToken ≤ (moveToNextSection s).state.speakToken := by
  unfold moveToNextSection
  split_ifs with h
  · simpa using playStep_speakToken_le
      { s with currentSectionIndex := s.currentSectionIndex + 1 }
  · simp

/-- `handleDone()` never decreases the speak token. -/
theorem handleDone_speakToken_le (s : TTSState) :
    s.speakToken ≤ (handleDone s).state.speakToken := by
  unfold handleDone
  split
  · simp
  · dsimp only
    split_ifs
    · exact le_trans (by simp) (playStep_speakToken_le _)
    · exact le_trans (by simp) (moveToNextSection_speakToken_le _)
  · exact moveToNextSection_speakToken_le s

/-- The `tts-finish` continuation never decreases the speak token. -/
theorem finishStep_speakToken_le (token : ℕ) (pauseAfter : ℤ) (s : TTSState) :
    s.speakToken ≤ (finishStep token pauseAfter s).state.speakToken := by
  unfold finishStep clearPauseAfterTimer
  split_ifs
  · simp
  · simp
  · simpa using handleDone_speakToken_le { s with pauseAfterTimer := none }

/-- The pause-timer callback never decreases the speak token. -/
theorem timerFireStep_speakToken_le (token : ℕ) (s : TTSState) :
    s.speakToken ≤ (timerFireStep token s).state.speakToken := by
  unfold timerFireStep
  split_ifs
  · simp
  · exact handleDone_speakToken_le s

/-- `updateAndReplay` never decreases the speak token. -/
theorem updateAndReplay_speakToken_le (upd : TTSOptions → TTSOptions)
    (s : TTSState) :
    s.speakToken ≤ (updateAndReplay upd s).state.speakToken := by
  unfold updateAndReplay
  dsimp only
  split_ifs with h1 h2
  · simp
  · exact le_trans (by simp) (playStep_speakToken_le _)
  · simp

/-- `goToSection` never decreases the speak token. -/
theorem goToSectionStep_speakToken_le (index : ℤ) (autoPlay : Bool)
    (s : TTSState) :
    s.speakToken ≤ (goToSectionStep index autoPlay s).state.speakToken := by
  unfold goToSectionStep stopStep
  dsimp only
  split_ifs with h1 h2
  · simp
  · exact le_trans (by simp) (playStep_speakToken_le _)
  · simp

/-- `globalErrorEvent` never decreases the speak token. -/
theorem globalErrorEvent_speakToken_le (fallbackVoice : Option String)
    (s : TTSState) :
    s.speakToken ≤ (globalErrorEvent fallbackVoice s).state.speakToken := by
  unfold globalErrorEvent stopStep
  dsimp only
  split_ifs with h1
  · exact le_trans (by simp) (playStep_speakToken_le _)
  · simp

end TTSService

/-- No command and no engine callback ever decreases the speak token. -/
theorem applyStep_speakToken_le (st : Step) (s : TTSState) :
    s.speakToken ≤ (applyStep st s).state.speakToken := by
  cases st <;>
    simp only [applyStep] <;>
    first
    | exact TTSService.playStep_speakToken_le s
    | exact TTSService.updateAndReplay_speakToken_le _ s
    | exact TTSService.goToSectionStep_speakToken_le _ _ s
    | exact TTSService.finishStep_speakToken_le _ _ s
    | exact TTSService.timerFireStep_speakToken_le _ s
    | skip
  case pause =>
    unfold TTSService.pauseStep TTSService.clearPauseAfterTimer
    split_ifs <;> simp
  case resume =>
    unfold TTSService.resumeStep
    split_ifs
    · exact TTSService.playStep_speakToken_le s
    · simp
  case stop =>
    simp [TTSService.stopStep]
  case next =>
    unfold TTSService.nextStep
    split_ifs
    · exact TTSService.goToSectionStep_speakToken_le _ _ s
    · simp
  case previous =>
    unfold TTSService.previousStep
    split_ifs
    · exact TTSService.goToSectionStep_speakToken_le _ _ s
    · simp
  case setLanguage => simp [TTSService.setLanguageStep]
  case setPlayMode => simp [TTSService.setPlayModeStep]
  case setPauseSettings => simp [TTSService.setPauseSettingsStep]
  case syncWithSettings => simp [TTSService.syncWithSettingsStep]
  case initSession => simp [TTSService.initStep]
  case cleanup => simp [TTSService.cleanupStep]
  case speakSample =>
    unfold TTSService.speakSampleStep TTSService.stopStep
    split_ifs <;> simp
  case ttsError =>
    unfold TTSService.errorStep
    split_ifs <;> simp
  case globalFinish => simp [TTSService.globalFinishEvent]
  case globalStart => simp [TTSService.globalStartEvent]
  case globalError => exact TTSService.globalErrorEvent_speakToken_le _ s

/-- Running any sequence of steps never decreases the speak token. -/
theorem applySteps_speakToken_le (steps : List Step) (s : TTSState) :
    s.speakToken ≤ (applySteps steps s).speakToken := by
  induction steps generalizing s with
  | nil => simp [applySteps]
  | cons st rest ih =>
      exact le_trans (applyStep_speakToken_le st s) (ih (applyStep st s).state)

/-- A superseding step (a `stop()` or an `initialize(...)`) strictly
increases the speak token. -/
theorem superseding_speakToken_lt (st : Step) (hst : st.superseding)
    (s : TTSState) :
    s.speakToken < (applyStep st s).state.speakToken := by
  cases st <;> simp [Step.superseding] at hst <;>
    simp [applyStep, TTSService.stopStep, TTSService.initStep]

/-- C1: for every sequence of commands in which a `play()` is superseded by
a later `stop()` or `initialize()` (both of which bump the speak token),
the completion callbacks belonging to the superseded `play()` — the
`tts-finish` and `tts-error` continuations of its `waitForTtsFinish` and
its pause-timer callback, each holding the captured token — change no
session state (status, section index, repeat count, pending pause timer and
every other field are left exactly as they were) and invoke no host
callback and no engine call. -/
theorem superseded_callbacks_are_noops (s : TTSState) (w : PendingWait)
    (hw : (TTSService.playStep s).waiting = some w)
    (pre : List Step) (sup : Step) (hsup : sup.superseding)
    (post : List Step) :
    TTSService.finishStep w.token w.pauseAfter
        (supersededState s pre sup post) =
      ⟨supersededState s pre sup post, [], none⟩ ∧
    TTSService.errorStep w.token (supersededState s pre sup post) =
      ⟨supersededState s pre sup post, [], none⟩ ∧
    TTSService.timerFireStep w.token (supersededState s pre sup post) =
      ⟨supersededState s pre sup post, [], none⟩ := by
  have htok : w.token = (TTSService.playStep s).state.speakToken :=
    TTSService.playStep_waiting_token s w hw
  have hlt : w.token < (supersededState s pre sup post).speakToken := by
    unfold supersededState
    have h1 := applySteps_speakToken_le pre (TTSService.playStep s).state
    have h2 := superseding_speakToken_lt sup hsup
      (applySteps pre (TTSService.playStep s).state)
    have h3 := applySteps_speakToken_le post
      (applyStep sup (applySteps pre (TTSService.playStep s).state)).state
    omega
  have hne : (supersededState s pre sup post).speakToken ≠ w.token := by
    omega
  exact ⟨TTSService.finishStep_stale _ _ _ hne,
    TTSService.errorStep_stale _ _ hne,
    TTSService.timerFireStep_stale _ _ hne⟩

/-- Witness for C1: `play()` on the concrete initialised one-section session
captures token 1 and pause 800; after a `stop()` its completion callbacks
leave the state untouched and emit nothing. -/
theorem superseded_callbacks_are_noops_witness :
    TTSService.finishStep 1 800 sampleSupersededState =
      ⟨sampleSupersededState, [], none⟩ ∧
    TTSService.errorStep 1 sampleSupersededState =
      ⟨sampleSupersededState, [], none⟩ ∧
    TTSService.timerFireStep 1 sampleSupersededState =
      ⟨sampleSupersededState, [], none⟩ :=
  superseded_callbacks_are_noops sampleState ⟨1, 800⟩ (by decide)
    [] Step.stop trivial []

/-- C2: in repeat mode, `handleDone` increments the repeat counter and
re-invokes `play()` on the same index while the incremented counter is below
the target, and on reaching the target resets the counter to 0 and advances
exactly as continuous mode would (`moveToNextSection`).  Concretely, with
target 3 on a 1-section list, `play()` followed by 3 natural completions
produces exactly 3 playbacks of the same text (the initial one plus 2
repeats), after which the exhausted list leaves the session `idle` with
`onDone` fired, no pending completion and no 4th playback. -/
theorem repeat_mode_three_completions :
    (∀ s : TTSState, s.playMode = PlayMode.repeatMode →
      (s.currentRepeatCount + 1 < s.targetRepeatCount →
        TTSService.handleDone s =
          TTSService.playStep
            { s with currentRepeatCount := s.currentRepeatCount + 1 }) ∧
      (s.targetRepeatCount ≤ s.currentRepeatCount + 1 →
        TTSService.handleDone s =
          TTSService.moveToNextSection
            { s with currentRepeatCount := 0 })) ∧
    repeatPlayOut.waiting = some ⟨2, 800⟩ ∧
    countSpeaks repeatPlayOut.effects = 1 ∧
    repeatDone1.waiting = some ⟨3, 800⟩ ∧
    countSpeaks repeatDone1.effects = 1 ∧
    repeatDone1.state.currentRepeatCount = 1 ∧
    repeatDone1.state.currentSectionIndex = 0 ∧
    repeatDone2.waiting = some ⟨4, 800⟩ ∧
    countSpeaks repeatDone2.effects = 1 ∧
    repeatDone2.state.currentRepeatCount = 2 ∧
    repeatDone2.state.currentSectionIndex = 0 ∧
    repeatDone3.waiting = none ∧
    repeatDone3.effects = [Effect.onDone] ∧
    repeatDone3.state.status = TTSStatus.idle ∧
    repeatDone3.state.currentRepeatCount = 0 ∧
    countSpeaks (runTrace repeatTrace sampleState).2 = 3 ∧
    (runTrace repeatTrace sampleState).2.filter isSpeakEffect =
      List.replicate 3 (Effect.engSpeak "hello" (1 / 2)) := by
  constructor
  · intro s hmode
    constructor
    · intro hlt
      unfold TTSService.handleDone
      rw [hmode]
      dsimp only
      rw [if_pos hlt]
    · intro hge
      unfold TTSService.handleDone
      rw [hmode]
      dsimp only
      rw [if_neg (by omega)]
  · decide

/-- Witness for C2's general rule: in the concrete repeat-mode session with
counter 0 and target 3, `handleDone` replays the same section with the
counter at 1. -/
theorem repeat_mode_three_completions_witness :
    TTSService.handleDone repeatWitnessState =
      TTSService.playStep
        { repeatWitnessState with
          currentRepeatCount := repeatWitnessState.currentRepeatCount + 1 } :=
  (repeat_mode_three_completions.1 repeatWitnessState rfl).1 (by decide)

namespace TTSService

/-- Full characterisation of a successful `play()`: with a non-empty section
list, an initialised engine and an in-range index, it sets `playing`, bumps
and captures the token, and performs exactly the `speakCurrent` engine calls
followed by `onStart`. -/
theorem playStep_success (s : TTSState) (hi : s.isTtsInitialized = true)
    (h2 : s.sections.length ≠ 0) (h3 : s.currentSectionIndex < s.sections.length) :
    playStep s =
      ⟨{ s with status := TTSStatus.playing, speakToken := s.speakToken + 1 },
        [Effect.engStop, Effect.applyOptions,
          Effect.engSpeak
            (s.sections.getD s.currentSectionIndex dummySection).text
            (jsOr s.options.rate 1 / 2),
          Effect.onStart],
        some ⟨s.speakToken + 1,
          getPauseTime s.options
            (s.sections.getD s.currentSectionIndex dummySection).type⟩⟩ := by
  unfold playStep bumpSpeakToken speakCurrentEffects
  rw [if_neg h2, if_neg (by simp [hi]), if_neg (by omega)]
  rfl

/-- `updateAndReplay` with an uninitialised engine only updates
the options. -/
theorem updateAndReplay_uninit (upd : TTSOptions → TTSOptions) (s : TTSState)
    (hi : s.isTtsInitialized = false) :
    updateAndReplay upd s = ⟨{ s with options := upd s.options }, [], none⟩ := by
  unfold updateAndReplay
  rw [if_pos hi]

/-- `updateAndReplay` on an initialised engine in a non-playing state stops
the engine, applies the update and settles with status `idle`, same index. -/
theorem updateAndReplay_notPlaying (upd : TTSOptions → TTSOptions)
    (s : TTSState) (hi : s.isTtsInitialized = true)
    (hs : s.status ≠ TTSStatus.playing) :
    updateAndReplay upd s =
      ⟨{ s with
          pauseAfterTimer := none
          speakToken := s.speakToken + 1
          status := TTSStatus.idle
          options := upd s.options },
        [Effect.engStop, Effect.applyOptions], none⟩ := by
  unfold updateAndReplay
  rw [if_neg (by simp [hi])]
  dsimp only
  rw [if_neg hs]

/-- `updateAndReplay` on an initialised engine in the `playing` state stops
the engine, applies the update, restores the index and replays the current
section. -/
theorem updateAndReplay_playing (upd : TTSOptions → TTSOptions)
    (s : TTSState) (hi : s.isTtsInitialized = true)
    (hs : s.status = TTSStatus.playing) :
    updateAndReplay upd s =
      ⟨(playStep { s with
          pauseAfterTimer := none
          speakToken := s.speakToken + 1
          status := TTSStatus.idle
          options := upd s.options }).state,
        Effect.engStop :: Effect.applyOptions ::
          (playStep { s with
            pauseAfterTimer := none
            speakToken := s.speakToken + 1
            status := TTSStatus.idle
            options := upd s.options }).effects,
        (playStep { s with
          pauseAfterTimer := none
          speakToken := s.speakToken + 1
          status := TTSStatus.idle
          options := upd s.options }).waiting⟩ := by
  unfold updateAndReplay
  rw [if_neg (by simp [hi])]
  dsimp only
  rw [if_pos hs]

end TTSService

/-- C3 counterexample: on the concrete initialised one-section session,
`stop()` sets status `stopped`, but a subsequent `play()` — with no
`initialize` in between — moves the status to `playing` and issues a
`Tts.speak`, contradicting the claim that `stopped` is terminal until
`initialize`. -/
theorem stopped_not_terminal_counterexample :
    (TTSService.stopStep sampleState).state.status = TTSStatus.stopped ∧
    (TTSService.playStep (TTSService.stopStep sampleState).state).state.status =
      TTSStatus.playing ∧
    countSpeaks
      (TTSService.playStep (TTSService.stopStep sampleState).state).effects =
      1 := by
  decide

/-- C3 amended: after `stop()` the status is `stopped`, and it stays
`stopped` under `resume()`, `pause()`, `setLanguage`, `setPlayMode` and
`setPauseSettings`; `initialize` resets it to `idle`.  However `play()`
from `stopped` (with sections present, the engine initialised and the index
in range) starts speech and sets `playing`, and
`setRate`/`setPitch`/`setVoice`/`setVolume` on an initialised engine settle
the status to `idle`, not `stopped`. -/
theorem stop_transitions_amended (s : TTSState) (l : String) (m : PlayMode)
    (rc : Option ℕ) (ps : PauseOverrides) (q : ℚ) (v : String) :
    (TTSService.stopStep s).state.status = TTSStatus.stopped ∧
    (s.status = TTSStatus.stopped →
      TTSService.resumeStep s = ⟨s, [], none⟩ ∧
      TTSService.pauseStep s = ⟨s, [], none⟩ ∧
      (TTSService.setLanguageStep l s).state.status = TTSStatus.stopped ∧
      (TTSService.setPlayModeStep m rc s).state.status = TTSStatus.stopped ∧
      (TTSService.setPauseSettingsStep ps s).state.status = TTSStatus.stopped) ∧
    (∀ (secs : List TtsSection) (i : ℕ) (o : TTSOptions),
      (TTSService.initStep secs i o s).state.status = TTSStatus.idle) ∧
    (s.status = TTSStatus.stopped → s.isTtsInitialized = true →
      s.sections.length ≠ 0 → s.currentSectionIndex < s.sections.length →
      (TTSService.playStep s).state.status = TTSStatus.playing ∧
      countSpeaks (TTSService.playStep s).effects = 1) ∧
    (s.status = TTSStatus.stopped → s.isTtsInitialized = true →
      (TTSService.setRateStep q s).state.status = TTSStatus.idle ∧
      (TTSService.setPitchStep q s).state.status = TTSStatus.idle ∧
      (TTSService.setVoiceStep v s).state.status = TTSStatus.idle ∧
      (TTSService.setVolumeStep q s).state.status = TTSStatus.idle) := by
  refine ⟨rfl, ?_, ?_, ?_, ?_⟩
  · intro hs
    refine ⟨?_, ?_, hs, hs, hs⟩
    · unfold TTSService.resumeStep
      rw [if_neg (by simp [hs])]
    · unfold TTSService.pauseStep
      rw [if_neg (by simp [hs])]
  · intro secs i o
    rfl
  · intro hs hi h2 h3
    rw [TTSService.playStep_success s hi h2 h3]
    exact ⟨rfl, by simp [countSpeaks, isSpeakEffect]⟩
  · intro hs hi
    have hnp : s.status ≠ TTSStatus.playing := by simp [hs]
    constructor
    · unfold TTSService.setRateStep
      rw [TTSService.updateAndReplay_notPlaying _ s hi hnp]
    constructor
    · unfold TTSService.setPitchStep
      rw [TTSService.updateAndReplay_notPlaying _ s hi hnp]
    constructor
    · unfold TTSService.setVoiceStep
      rw [TTSService.updateAndReplay_notPlaying _ s hi hnp]
    · unfold TTSService.setVolumeStep
      rw [TTSService.updateAndReplay_notPlaying _ s hi hnp]

/-- Witness for C3 (amended): the concrete stopped session satisfies every
hypothesis; `play()` resumes speech and `setRate` settles to `idle`. -/
theorem stop_transitions_amended_witness :
    (TTSService.playStep (TTSService.stopStep sampleState).state).state.status =
      TTSStatus.playing ∧
    countSpeaks
      (TTSService.playStep (TTSService.stopStep sampleState).state).effects =
      1 ∧
    (TTSService.setRateStep 2
      (TTSService.stopStep sampleState).state).state.status =
      TTSStatus.idle := by
  refine ⟨?_, ?_, ?_⟩
  · exact ((stop_transitions_amended (TTSService.stopStep sampleState).state
      "ko" PlayMode.single none defaultsAsOverrides 2 "v").2.2.2.1
      rfl rfl (by decide) (by decide)).1
  · exact ((stop_transitions_amended (TTSService.stopStep sampleState).state
      "ko" PlayMode.single none defaultsAsOverrides 2 "v").2.2.2.1
      rfl rfl (by decide) (by decide)).2
  · exact ((stop_transitions_amended (TTSService.stopStep sampleState).state
      "ko" PlayMode.single none defaultsAsOverrides 2 "v").2.2.2.2
      rfl rfl).1

/-- C4 counterexample: on the concrete paused session (engine initialised),
`setRate(2)` settles the status to `idle`, not `paused` as the claim
requires. -/
theorem paused_setting_change_counterexample :
    samplePausedState.status = TTSStatus.paused ∧
    (TTSService.setRateStep 2 samplePausedState).state.status =
      TTSStatus.idle ∧
    (TTSService.setRateStep 2 samplePausedState).state.status ≠
      TTSStatus.paused := by
  decide

/-- C4 amended: from a `paused` session, `setRate`/`setPitch`/`setVoice`
apply the new value to the options and leave `currentSectionIndex`
unchanged, but when the engine is initialised the status settles to `idle`
(it remains `paused` only when the engine is not initialised, where the
update is options-only). -/
theorem paused_setting_change_amended (s : TTSState) (q p : ℚ) (v : String)
    (hs : s.status = TTSStatus.paused) :
    (s.isTtsInitialized = true →
      (TTSService.setRateStep q s).state.options.rate = some q ∧
      (TTSService.setRateStep q s).state.currentSectionIndex =
        s.currentSectionIndex ∧
      (TTSService.setRateStep q s).state.status = TTSStatus.idle ∧
      (TTSService.setPitchStep p s).state.options.pitch = some p ∧
      (TTSService.setPitchStep p s).state.currentSectionIndex =
        s.currentSectionIndex ∧
      (TTSService.setPitchStep p s).state.status = TTSStatus.idle ∧
      (TTSService.setVoiceStep v s).state.options.voice = some v ∧
      (TTSService.setVoiceStep v s).state.currentSectionIndex =
        s.currentSectionIndex ∧
      (TTSService.setVoiceStep v s).state.status = TTSStatus.idle) ∧
    (s.isTtsInitialized = false →
      (TTSService.setRateStep q s).state.status = TTSStatus.paused ∧
      (TTSService.setRateStep q s).state.options.rate = some q ∧
      (TTSService.setRateStep q s).state.currentSectionIndex =
        s.currentSectionIndex ∧
      (TTSService.setPitchStep p s).state.status = TTSStatus.paused ∧
      (TTSService.setVoiceStep v s).state.status = TTSStatus.paused) := by
  have hnp : s.status ≠ TTSStatus.playing := by simp [hs]
  constructor
  · intro hi
    unfold TTSService.setRateStep TTSService.setPitchStep
      TTSService.setVoiceStep
    rw [TTSService.updateAndReplay_notPlaying _ s hi hnp,
      TTSService.updateAndReplay_notPlaying _ s hi hnp,
      TTSService.updateAndReplay_notPlaying _ s hi hnp]
    exact ⟨rfl, rfl, rfl, rfl, rfl, rfl, rfl, rfl, rfl⟩
  · intro hi
    unfold TTSService.setRateStep TTSService.setPitchStep
      TTSService.setVoiceStep
    rw [TTSService.updateAndReplay_uninit _ s hi,
      TTSService.updateAndReplay_uninit _ s hi,
      TTSService.updateAndReplay_uninit _ s hi]
    exact ⟨hs, rfl, rfl, hs, hs⟩

/-- Witness for C4 (amended): the concrete paused initialised session. -/
theorem paused_setting_change_amended_witness :
    (TTSService.setRateStep 2 samplePausedState).state.options.rate =
      some 2 ∧
    (TTSService.setRateStep 2 samplePausedState).state.currentSectionIndex =
      samplePausedState.currentSectionIndex ∧
    (TTSService.setRateStep 2 samplePausedState).state.status =
      TTSStatus.idle :=
  ⟨((paused_setting_change_amended samplePausedState 2 1 "v" rfl).1 rfl).1,
    ((paused_setting_change_amended samplePausedState 2 1 "v" rfl).1 rfl).2.1,
    ((paused_setting_change_amended samplePausedState 2 1 "v" rfl).1 rfl).2.2.1⟩

/-- C5 counterexample: on the concrete playing session, `setRate(2)` issues
two `Tts.stop` calls (one from `updateAndReplay`, one from `speakCurrent`),
not the single stop the claim describes. -/
theorem rate_change_two_stops_counterexample :
    samplePlayingState.status = TTSStatus.playing ∧
    countStops (TTSService.setRateStep 2 samplePlayingState).effects = 2 ∧
    countStops (TTSService.setRateStep 2 samplePlayingState).effects ≠ 1 := by
  decide

/-- C5 amended: `setRate(x)` while `playing` (engine initialised, sections
present, index in range) leaves the status `playing` and the index
unchanged when it settles, stores the new rate, and restarts the current
section's speech exactly once — exactly one `Tts.speak` of the same
section's text at the new rate — preceded by two engine stops. -/
theorem rate_change_while_playing (s : TTSState) (q : ℚ)
    (hs : s.status = TTSStatus.playing) (hi : s.isTtsInitialized = true)
    (h2 : s.sections.length ≠ 0)
    (h3 : s.currentSectionIndex < s.sections.length) :
    (TTSService.setRateStep q s).state.status = TTSStatus.playing ∧
    (TTSService.setRateStep q s).state.currentSectionIndex =
      s.currentSectionIndex ∧
    (TTSService.setRateStep q s).state.options.rate = some q ∧
    countSpeaks (TTSService.setRateStep q s).effects = 1 ∧
    (TTSService.setRateStep q s).effects.filter isSpeakEffect =
      [Effect.engSpeak
        (s.sections.getD s.currentSectionIndex TTSService.dummySection).text
        (jsOr (some q) 1 / 2)] ∧
    countStops (TTSService.setRateStep q s).effects = 2 := by
  unfold TTSService.setRateStep
  rw [TTSService.updateAndReplay_playing _ s hi hs]
  rw [TTSService.playStep_success
    { s with
      pauseAfterTimer := none
      speakToken := s.speakToken + 1
      status := TTSStatus.idle
      options := { s.options with rate := some q } } hi h2 h3]
  exact ⟨rfl, rfl, rfl, by simp [countSpeaks, isSpeakEffect],
    by simp [isSpeakEffect], by simp [countStops, isStopEffect]⟩

/-- Witness for C5 (amended): the concrete playing session with
`setRate(2)`. -/
theorem rate_change_while_playing_witness :
    (TTSService.setRateStep 2 samplePlayingState).state.status =
      TTSStatus.playing ∧
    (TTSService.setRateStep 2 samplePlayingState).state.currentSectionIndex =
      samplePlayingState.currentSectionIndex ∧
    (TTSService.setRateStep 2 samplePlayingState).state.options.rate =
      some 2 :=
  ⟨(rate_change_while_playing samplePlayingState 2 rfl rfl
      (by decide) (by decide)).1,
    (rate_change_while_playing samplePlayingState 2 rfl rfl
      (by decide) (by decide)).2.1,
    (rate_change_while_playing samplePlayingState 2 rfl rfl
      (by decide) (by decide)).2.2.1⟩

/-- Rounding a non-negative rational is non-negative. -/
theorem round_nonneg_of_nonneg (q : ℚ) (h : 0 ≤ q) : 0 ≤ round q := by
  rw [round_eq]
  refine Int.le_floor.mpr ?_
  push_cast
  linarith

/-- C6 counterexample: a caller-supplied negative override of the heading
base makes `getPauseTime` return `-1000` at rate 1, so the result is not
always ≥ 0 as the claim states. -/
theorem pause_duration_negative_counterexample :
    TTSService.getPauseTime negativeOverrideOptions "heading" = -1000 ∧
    TTSService.getPauseTime negativeOverrideOptions "heading" < 0 := by
  decide

/-- C6 amended: for every section category string `c` and every rate
`r > 0`, the inter-section pause equals `round(base / r)` where `base` is
the caller-supplied override when present and otherwise 1500 for heading,
800 for paragraph, 1200 for formula, 1000 for image descriptions and 500 for
anything else; the result is an integer that is ≥ 0 whenever the effective
base is ≥ 0 (always the case for the built-in defaults) — a negative
caller override yields a negative duration.  The computation reads nothing
but the category and the options. -/
theorem pause_duration_formula (opts : TTSOptions) (ps : PauseOverrides)
    (r : ℚ) (c : String) (hps : opts.pauseSettings = some ps)
    (hr : opts.rate = some r) (hpos : 0 < r) :
    TTSService.getPauseTime opts c =
      round ((if c = "heading" then ps.heading.getD 1500
        else if c = "paragraph" then ps.paragraph.getD 800
        else if c = "formula" then ps.formula.getD 1200
        else if c = "image_description" then ps.imageDescription.getD 1000
        else ps.default.getD 500) / r) ∧
    (0 ≤ (if c = "heading" then ps.heading.getD 1500
        else if c = "paragraph" then ps.paragraph.getD 800
        else if c = "formula" then ps.formula.getD 1200
        else if c = "image_description" then ps.imageDescription.getD 1000
        else ps.default.getD 500) →
      0 ≤ TTSService.getPauseTime opts c) := by
  have hrate : jsOr opts.rate 1 = r := by
    simp [jsOr, hr, ne_of_gt hpos]
  have hbase :
      TTSService.getPauseTime opts c =
        jsRound ((if c = "heading" then ps.heading.getD 1500
          else if c = "paragraph" then ps.paragraph.getD 800
          else if c = "formula" then ps.formula.getD 1200
          else if c = "image_description" then ps.imageDescription.getD 1000
          else ps.default.getD 500) / r) := by
    unfold TTSService.getPauseTime
    rw [hps, hrate]
    rfl
  constructor
  · rw [hbase, TTSService.jsRound_eq_round]
  · intro hb
    rw [hbase, TTSService.jsRound_eq_round]
    exact round_nonneg_of_nonneg _ (div_nonneg hb (le_of_lt hpos))

/-- Witness for C6 (amended): the default options at rate 1 give a heading
pause of `round(1500 / 1)` with a non-negative result. -/
theorem pause_duration_formula_witness :
    TTSService.getPauseTime sampleOptions "heading" =
      round ((if "heading" = "heading" then
          (defaultsAsOverrides.heading).getD 1500
        else if "heading" = "paragraph" then
          (defaultsAsOverrides.paragraph).getD 800
        else if "heading" = "formula" then
          (defaultsAsOverrides.formula).getD 1200
        else if "heading" = "image_description" then
          (defaultsAsOverrides.imageDescription).getD 1000
        else (defaultsAsOverrides.default).getD 500) / 1) ∧
    0 ≤ TTSService.getPauseTime sampleOptions "heading" :=
  ⟨(pause_duration_formula sampleOptions defaultsAsOverrides 1 "heading"
      rfl rfl (by norm_num)).1,
    (pause_duration_formula sampleOptions defaultsAsOverrides 1 "heading"
      rfl rfl (by norm_num)).2 (by decide)⟩

/-- C7: when the automatic retries are exhausted (`retryCount ≥ maxRetry`),
the module-level `tts-error` handler surfaces the error exactly through
`onError` and leaves the status `idle` (not `stopped`); the
`waitForTtsFinish` error branch with a current token does the same; and
from the resulting `idle` state a plain `play()` (engine initialised,
sections present, index in range) starts speech again without any new
`initialize`. -/
theorem terminal_error_idle_and_resumable (s : TTSState)
    (fb : Option String) (tok : ℕ) :
    (TTSService.maxRetry ≤ s.retryCount →
      TTSService.globalErrorEvent fb s =
        ⟨{ s with status := TTSStatus.idle }, [Effect.onError], none⟩) ∧
    (tok = s.speakToken →
      TTSService.errorStep tok s =
        ⟨{ s with status := TTSStatus.idle }, [Effect.onError], none⟩) ∧
    (s.status = TTSStatus.idle → s.isTtsInitialized = true →
      s.sections.length ≠ 0 → s.currentSectionIndex < s.sections.length →
      (TTSService.playStep s).state.status = TTSStatus.playing ∧
      countSpeaks (TTSService.playStep s).effects = 1) := by
  refine ⟨?_, ?_, ?_⟩
  · intro h
    unfold TTSService.globalErrorEvent
    dsimp only
    rw [if_neg (by omega)]
  · intro h
    unfold TTSService.errorStep
    rw [if_neg (by omega)]
  · intro hs hi h2 h3
    rw [TTSService.playStep_success s hi h2 h3]
    exact ⟨rfl, by simp [countSpeaks, isSpeakEffect]⟩

/-- Witness for C7: the concrete session with exhausted retries surfaces
`onError` and stays `idle`, and a plain `play()` resumes speech. -/
theorem terminal_error_idle_and_resumable_witness :
    TTSService.globalErrorEvent none retryExhaustedState =
      ⟨{ retryExhaustedState with status := TTSStatus.idle },
        [Effect.onError], none⟩ ∧
    (TTSService.playStep retryExhaustedState).state.status =
      TTSStatus.playing :=
  ⟨(terminal_error_idle_and_resumable retryExhaustedState none 0).1
      (by decide),
    ((terminal_error_idle_and_resumable retryExhaustedState none 0).2.2
      rfl rfl (by decide) (by decide)).1⟩

/-- C8: `next()` at the last index, `previous()` at index 0, and
`goToSection` with a negative or out-of-range index, each return a result
whose state is exactly the input state, with no effects — no speech, no
host callback, no engine call — and (being total functions) no exception. -/
theorem boundary_commands_are_noops (s : TTSState) (i : ℤ) (b : Bool) :
    (s.sections ≠ [] → s.currentSectionIndex = s.sections.length - 1 →
      TTSService.nextStep s = ⟨s, [], none⟩) ∧
    (s.currentSectionIndex = 0 →
      TTSService.previousStep s = ⟨s, [], none⟩) ∧
    (i < 0 ∨ (s.sections.length : ℤ) ≤ i →
      TTSService.goToSectionStep i b s = ⟨s, [], none⟩) := by
  refine ⟨?_, ?_, ?_⟩
  · intro hne hlast
    have hl : s.sections.length ≠ 0 := by
      simpa using fun h => hne (List.length_eq_zero.mp h)
    unfold TTSService.nextStep
    rw [if_neg (by omega)]
  · intro h0
    unfold TTSService.previousStep
    rw [if_neg (by omega)]
  · intro hiv
    unfold TTSService.goToSectionStep
    rw [if_pos hiv]

/-- Witness for C8: on the concrete one-section session, index 0 is both
first and last, and index 5 is out of range; all three calls are no-ops. -/
theorem boundary_commands_are_noops_witness :
    TTSService.nextStep sampleState = ⟨sampleState, [], none⟩ ∧
    TTSService.previousStep sampleState = ⟨sampleState, [], none⟩ ∧
    TTSService.goToSectionStep 5 true sampleState =
      ⟨sampleState, [], none⟩ :=
  ⟨(boundary_commands_are_noops sampleState 5 true).1
      (by decide) (by decide),
    (boundary_commands_are_noops sampleState 5 true).2.1 rfl,
    (boundary_commands_are_noops sampleState 5 true).2.2
      (Or.inr (by decide))⟩

/-- C9: when the guard's scheduled check finds the engine not speaking and
the status not `playing`, with the screen-reader flag active, it performs at
most 2 retry attempts (each a delayed `play()` — or `resume()` when the
captured status was `paused` — followed by an `isSpeaking()` probe), stops
retrying as soon as a probe reports speaking, and when neither probe
succeeds it gives up after exactly 2 attempts and optimistically marks the
playing flag true instead of retrying further. -/
theorem autoplay_guard_bounded_retries (status : TTSStatus)
    (probe : ℕ → Bool) (h : status ≠ TTSStatus.playing) :
    (Guard.ensureAutoPlayCheck false status true probe).attempts ≤ 2 ∧
    (Guard.ensureAutoPlayCheck false status true probe).isPlaying =
      some true ∧
    (Guard.ensureAutoPlayCheck false status true probe).calls =
      List.replicate
        (Guard.ensureAutoPlayCheck false status true probe).attempts
        (if status = TTSStatus.paused then Guard.GuardCall.callResume
          else Guard.GuardCall.callPlay) ∧
    (probe 0 = true →
      (Guard.ensureAutoPlayCheck false status true probe).attempts = 1 ∧
      (Guard.ensureAutoPlayCheck false status true probe).optimistic =
        false) ∧
    (probe 0 = false → probe 1 = true →
      (Guard.ensureAutoPlayCheck false status true probe).attempts = 2 ∧
      (Guard.ensureAutoPlayCheck false status true probe).optimistic =
        false) ∧
    (probe 0 = false → probe 1 = false →
      (Guard.ensureAutoPlayCheck false status true probe).attempts = 2 ∧
      (Guard.ensureAutoPlayCheck false status true probe).optimistic =
        true) := by
  cases status <;> simp only [ne_eq, not_true_eq_false] at h <;>
    cases hp0 : probe 0 <;> cases hp1 : probe 1 <;>
    simp [Guard.ensureAutoPlayCheck, Guard.srRetry, Guard.maxRetries,
      Guard.srRetryAux, hp0, hp1]

/-- Witness for C9: with status `idle` and both probes failing, the guard
makes exactly 2 play attempts and optimistically sets the flag. -/
theorem autoplay_guard_bounded_retries_witness :
    (Guard.ensureAutoPlayCheck false TTSStatus.idle true
        (fun _ => false)).attempts = 2 ∧
    (Guard.ensureAutoPlayCheck false TTSStatus.idle true
        (fun _ => false)).optimistic = true ∧
    (Guard.ensureAutoPlayCheck false TTSStatus.idle true
        (fun _ => false)).isPlaying = some true :=
  ⟨((autoplay_guard_bounded_retries TTSStatus.idle (fun _ => false)
      (by decide)).2.2.2.2.2 rfl rfl).1,
    ((autoplay_guard_bounded_retries TTSStatus.idle (fun _ => false)
      (by decide)).2.2.2.2.2 rfl rfl).2,
    (autoplay_guard_bounded_retries TTSStatus.idle (fun _ => false)
      (by decide)).2.1⟩

/-- C10: `isSpeaking()` returns true exactly when the internal status field
is `playing`; it is a pure function of that field (equal statuses give
equal answers, no engine query occurs in its definition); and immediately
after a successful `play()` has set the status, `isSpeaking()` reports true
— in this model the engine's actual behaviour is not consulted at all, so
the probe cannot detect a silent engine failure. -/
theorem isSpeaking_reflects_status (s s2 : TTSState) :
    (TTSService.isSpeaking s = true ↔ s.status = TTSStatus.playing) ∧
    (s.status = s2.status →
      TTSService.isSpeaking s = TTSService.isSpeaking s2) ∧
    (s.isTtsInitialized = true → s.sections.length ≠ 0 →
      s.currentSectionIndex < s.sections.length →
      TTSService.isSpeaking (TTSService.playStep s).state = true) := by
  refine ⟨?_, ?_, ?_⟩
  · simp [TTSService.isSpeaking]
  · intro h
    simp [TTSService.isSpeaking, h]
  · intro hi h2 h3
    rw [TTSService.playStep_success s hi h2 h3]
    simp [TTSService.isSpeaking]

/-- Witness for C10: right after `play()` on the concrete idle session,
`isSpeaking()` reports true. -/
theorem isSpeaking_reflects_status_witness :
    TTSService.isSpeaking (TTSService.playStep sampleState).state = true :=
  (isSpeaking_reflects_status sampleState sampleState).2.2 rfl
    (by decide) (by decide)

end RatEval

end DoDream
